import Mathlib

/-!
# Nail Salon Booking API — shallow embedding and verification

Shallow embedding of the appointment scheduling core of the booking
backend (`main.py`, `schemas.py`): entity lookup (`ensure_exists`),
end-time computation (`compute_end`), the overlap predicate
(`has_overlap`), appointment creation (`create_appointment`) and the
status/notes update (`update_appointment_status`).

Modelling conventions:
* timestamps are `Int`, measured in minutes, so
  `start + timedelta(minutes=d)` becomes `start + d`;
* a Mongo collection is an association list `List (String × α)` keyed by
  the canonical (lower-case hex) ObjectId string; `find_one` is the first
  match, `insert` appends (Entity Store interface per the spec, the
  `database` module is not part of the sources);
* bson `ObjectId(raw)` either normalises a 24-hex-digit string or raises
  `InvalidId`; this is `oidParse : String → Option String`.  The helper
  `ensure_exists` wraps the constructor in try/except (a raise is caught
  and treated as "absent"), while the update handler calls it bare, so a
  malformed id there surfaces as an uncaught error (`ApiError.invalidId`);
* the stored service document is a raw Mongo document whose
  `duration_minutes` field may be absent (`Option Int`), mirroring
  `service.get("duration_minutes", 60)`;
* each handler returns `Except ApiError result × Store`: raising an
  HTTPException leaves the store unchanged, success returns the store
  after its writes.
-/

/-- Appointment status, the `Literal["booked", "canceled", "completed"]`
of `schemas.Appointment.status` (the PATCH payload's regex
`^(booked|canceled|completed)$` admits exactly the same values). -/
inductive Status where
  | booked
  | canceled
  | completed
deriving DecidableEq, Repr

/-- `schemas.Client`. -/
structure ClientDoc where
  name : String
  phone : String
  email : Option String
  notes : Option String
deriving DecidableEq, Repr

/-- `schemas.Staff`. -/
structure StaffDoc where
  name : String
  specialties : List String
  active : Bool
deriving DecidableEq, Repr

/-- A stored service document.  `schemas.Service` requires
`duration_minutes`, but `create_appointment` reads it defensively with
`service.get("duration_minutes", 60)`, so the stored document is
modelled with the field optional. -/
structure ServiceDoc where
  name : String
  description : Option String
  duration_minutes : Option Int
  price : Int
  active : Bool
deriving DecidableEq, Repr

/-- A stored appointment document (`schemas.Appointment` plus the
`updated_at` field that `update_appointment_status` writes via `$set`;
it is absent on freshly created appointments). -/
structure AppointmentDoc where
  client_id : String
  staff_id : String
  service_id : String
  start_time : Int
  end_time : Int
  status : Status
  notes : Option String
  updated_at : Option Int
deriving DecidableEq, Repr

/-- The Mongo database: one association list per collection, keyed by
canonical ObjectId strings. -/
structure Store where
  clients : List (String × ClientDoc)
  staffs : List (String × StaffDoc)
  services : List (String × ServiceDoc)
  appointments : List (String × AppointmentDoc)
deriving DecidableEq, Repr

/-- Errors a handler can surface: the HTTPExceptions raised in
`main.py`, plus `invalidId` for an uncaught `bson.errors.InvalidId`
escaping a bare `ObjectId(...)` call (an HTTP 500, not a 404). -/
inductive ApiError where
  | notFound (label : String)
  | conflict (detail : String)
  | invalidId
deriving DecidableEq, Repr

deriving instance DecidableEq for Except

/-- Request body of `POST /api/appointments` (`AppointmentCreate`):
note there is no `end_time` field — the caller cannot supply one. -/
structure AppointmentCreate where
  client_id : String
  staff_id : String
  service_id : String
  start_time : Int
  notes : Option String
deriving DecidableEq, Repr

/-- Request body of `PATCH /api/appointments/{id}`
(`AppointmentStatusUpdate`): both fields optional. -/
structure AppointmentStatusUpdate where
  status : Option Status
  notes : Option String
deriving DecidableEq, Repr

/-- Is `c` a hexadecimal digit?  (bson ObjectId validity check.) -/
def isHexChar (c : Char) : Bool :=
  c.isDigit || ('a' ≤ c && c ≤ 'f') || ('A' ≤ c && c ≤ 'F')

/-- Modelled from the spec: bson `ObjectId(raw)` (the `bson` library is
an external collaborator).  A raw identifier is valid iff it is a
24-character hex string; a valid one is normalised to lower case (its
canonical string form), an invalid one raises `InvalidId`, here `none`. -/
def oidParse (s : String) : Option String :=
  if s.length == 24 && s.toList.all isHexChar then
    some (String.mk (s.data.map Char.toLower))
  else none

/-- Modelled from the spec: the Entity Store's
`findById(collection, id) → record | absent` (`db[coll].find_one` on an
`_id`; the `database` module is not among the sources).  First entry
with the given canonical key. -/
def find_one (coll : List (String × α)) (key : String) : Option α :=
  (coll.find? (fun pr => pr.1 == key)).map Prod.snd

/-- `ensure_exists` (main.py:107-114), lookup part: `ObjectId(_id)` is
wrapped in try/except, so a malformed raw id is treated exactly like an
absent document. -/
def ensure_exists_doc (coll : List (String × α)) (rawId : String) : Option α :=
  match oidParse rawId with
  | none => none
  | some key => find_one coll key

/-- `compute_end` (main.py:117-118): `start + timedelta(minutes=duration)`,
with time measured in minutes. -/
def compute_end (start : Int) (duration_minutes : Int) : Int :=
  start + duration_minutes

/-- The per-document part of the `has_overlap` Mongo query
(main.py:122-128): same staff, blocking status (`booked` or
`completed`), and `start_time < end AND end_time > start`. -/
def overlapPred (staff_id : String) (startT endT : Int)
    (pr : String × AppointmentDoc) : Bool :=
  pr.2.staff_id == staff_id
    && (pr.2.status == Status.booked || pr.2.status == Status.completed)
    && decide (pr.2.start_time < endT)
    && decide (pr.2.end_time > startT)

/-- `has_overlap` (main.py:121-131): `count_documents(query) > 0`, with
the optional `exclude_id` turned into an `_id ≠ exclude` conjunct (its
callers in the sources never pass it). -/
def has_overlap (s : Store) (staff_id : String) (startT endT : Int)
    (exclude_id : Option String) : Bool :=
  decide (0 < (s.appointments.countP (fun pr =>
    overlapPred staff_id startT endT pr
      && (match exclude_id with
          | none => true
          | some e => !(pr.1 == e)))))

/-- `create_appointment` (main.py:201-229).  `newId` is the ObjectId the
store generates for the insert.  Each `raise HTTPException` returns the
error with the store untouched; the single write
(`create_document("appointment", appt)`, the Entity Store's `insert`)
appends the new document. -/
def create_appointment (s : Store) (newId : String) (payload : AppointmentCreate) :
    Except ApiError AppointmentDoc × Store :=
  match ensure_exists_doc s.clients payload.client_id with
  | none => (Except.error (ApiError.notFound "Client"), s)
  | some _client =>
    match ensure_exists_doc s.staffs payload.staff_id with
    | none => (Except.error (ApiError.notFound "Staff"), s)
    | some _staff =>
      match ensure_exists_doc s.services payload.service_id with
      | none => (Except.error (ApiError.notFound "Service"), s)
      | some service =>
        let duration := service.duration_minutes.getD 60
        let start_time := payload.start_time
        let end_time := compute_end start_time duration
        if has_overlap s payload.staff_id start_time end_time none then
          (Except.error (ApiError.conflict
            "Time slot overlaps another appointment for this staff member"), s)
        else
          let appt : AppointmentDoc :=
            { client_id := payload.client_id
              staff_id := payload.staff_id
              service_id := payload.service_id
              start_time := start_time
              end_time := end_time
              status := Status.booked
              notes := payload.notes
              updated_at := none }
          (Except.ok appt,
            { s with appointments := s.appointments ++ [(newId, appt)] })

/-- The document `create_appointment` builds in its success branch:
status `booked`, `end_time` the derived one, no `updated_at` yet. -/
def newApptDoc (p : AppointmentCreate) (endT : Int) : AppointmentDoc :=
  { client_id := p.client_id
    staff_id := p.staff_id
    service_id := p.service_id
    start_time := p.start_time
    end_time := endT
    status := Status.booked
    notes := p.notes
    updated_at := none }

/-- The `$set` document of `update_appointment_status`: whichever of
`status` and `notes` was supplied, plus `updated_at := now`. -/
def patchDoc (doc : AppointmentDoc) (payload : AppointmentStatusUpdate)
    (now : Int) : AppointmentDoc :=
  { doc with
    status := payload.status.getD doc.status
    notes := match payload.notes with
             | some n => some n
             | none => doc.notes
    updated_at := some now }

/-- Mongo `update_one({_id: key}, {$set: ...})`: replace the first
entry with the given key by the updated document. -/
def setFirst (l : List (String × AppointmentDoc)) (key : String)
    (doc : AppointmentDoc) : List (String × AppointmentDoc) :=
  match l with
  | [] => []
  | pr :: rest =>
    if pr.1 == key then (pr.1, doc) :: rest else pr :: setFirst rest key doc

/-- `update_appointment_status` (main.py:232-249).  The handler calls
`ObjectId(appointment_id)` with no try/except, so a malformed id is an
uncaught `InvalidId` (`ApiError.invalidId`), not a 404.  An empty update
set returns the document unchanged with no write; otherwise the supplied
fields plus `updated_at = now` are `$set` and the re-read document is
returned. -/
def update_appointment_status (s : Store) (appointment_id : String)
    (payload : AppointmentStatusUpdate) (now : Int) :
    Except ApiError AppointmentDoc × Store :=
  match oidParse appointment_id with
  | none => (Except.error ApiError.invalidId, s)
  | some key =>
    match find_one s.appointments key with
    | none => (Except.error (ApiError.notFound "Appointment"), s)
    | some doc =>
      if payload.status.isNone && payload.notes.isNone then
        (Except.ok doc, s)
      else
        let doc' : AppointmentDoc :=
          { doc with
            status := payload.status.getD doc.status
            notes := match payload.notes with
                     | some n => some n
                     | none => doc.notes
            updated_at := some now }
        (Except.ok doc',
          { s with appointments := setFirst s.appointments key doc' })

/-! ## Operation sequences and the no-double-booking invariant -/

/-- One core operation against the store: a `POST /api/appointments` or a
`PATCH /api/appointments/{id}` request.  `newId` is the ObjectId the store
generates for a create; `now` is the wall clock an update observes. -/
inductive Op where
  | create (newId : String) (payload : AppointmentCreate)
  | update (appointment_id : String) (payload : AppointmentStatusUpdate) (now : Int)
deriving DecidableEq, Repr

/-- The store after one operation (its response is discarded). -/
def applyOp (s : Store) : Op → Store
  | Op.create newId payload => (create_appointment s newId payload).2
  | Op.update aid payload now => (update_appointment_status s aid payload now).2

/-- The store after a sequence of operations, applied left to right. -/
def runOps (s : Store) (ops : List Op) : Store :=
  ops.foldl applyOp s

/-- A blocking status occupies the staff member's schedule: `booked` or
`completed` (the `$in` list of the `has_overlap` query). -/
def blockingStatus (st : Status) : Prop :=
  st = Status.booked ∨ st = Status.completed

instance (st : Status) : Decidable (blockingStatus st) := by
  unfold blockingStatus; infer_instance

/-- Two stored appointments are compatible when they do not double-book a
staff member: if they are for the same staff and both blocking, their
`[start_time, end_time)` intervals do not intersect. -/
def apptCompat (p q : String × AppointmentDoc) : Prop :=
  p.2.staff_id = q.2.staff_id → blockingStatus p.2.status →
    blockingStatus q.2.status →
    ¬(p.2.start_time < q.2.end_time ∧ q.2.start_time < p.2.end_time)

instance (p q : String × AppointmentDoc) : Decidable (apptCompat p q) := by
  unfold apptCompat; infer_instance

/-- The spec's schedule invariant: no two stored appointments double-book
any staff member. -/
def staffConsistent (s : Store) : Prop :=
  s.appointments.Pairwise apptCompat

instance (s : Store) : Decidable (staffConsistent s) := by
  unfold staffConsistent; infer_instance

/-- An operation that never hands a blocking status to the no-re-check
update path: creates are unrestricted, updates may only leave the status
alone or set it to `canceled`. -/
def updateKeepsBlocking : Op → Prop
  | Op.create _ _ => True
  | Op.update _ payload _ =>
      payload.status = none ∨ payload.status = some Status.canceled

instance (op : Op) : Decidable (updateKeepsBlocking op) := by
  cases op <;> (unfold updateKeepsBlocking; infer_instance)

/-! ## Concrete sample data (for witnesses and counterexamples) -/

/-- A canonical client ObjectId. -/
def exClientId : String := "aaaaaaaaaaaaaaaaaaaaaaaa"

/-- A canonical staff ObjectId. -/
def exStaffId : String := "bbbbbbbbbbbbbbbbbbbbbbbb"

/-- A canonical service ObjectId (60-minute service). -/
def exServiceId : String := "cccccccccccccccccccccccc"

/-- A canonical service ObjectId (document missing `duration_minutes`). -/
def exServiceNoDurId : String := "ffffffffffffffffffffffff"

/-- A canonical appointment ObjectId. -/
def exApptId : String := "dddddddddddddddddddddddd"

/-- A second canonical appointment ObjectId. -/
def exApptId2 : String := "eeeeeeeeeeeeeeeeeeeeeeee"

/-- A third canonical appointment ObjectId. -/
def exApptId3 : String := "a1b2c3d4e5f6a1b2c3d4e5f6"

def exClient : ClientDoc :=
  { name := "Noa", phone := "555-0100", email := none, notes := none }

def exStaff : StaffDoc :=
  { name := "Ava", specialties := ["Gel"], active := true }

def exService : ServiceDoc :=
  { name := "Gel Manicure", description := none, duration_minutes := some 60,
    price := 45, active := true }

/-- A stored service document lacking the `duration_minutes` field. -/
def exServiceNoDur : ServiceDoc :=
  { name := "Consultation", description := none, duration_minutes := none,
    price := 0, active := true }

/-- One client, one staff member, two services, no appointments yet. -/
def exStore0 : Store :=
  { clients := [(exClientId, exClient)]
    staffs := [(exStaffId, exStaff)]
    services := [(exServiceId, exService), (exServiceNoDurId, exServiceNoDur)]
    appointments := [] }

/-- A booked appointment for Ava, 10:00–11:00 (minutes 600–660). -/
def exAppt : AppointmentDoc :=
  { client_id := exClientId, staff_id := exStaffId, service_id := exServiceId,
    start_time := 600, end_time := 660, status := Status.booked,
    notes := none, updated_at := none }

/-- `exStore0` with `exAppt` stored under `exApptId`. -/
def exStore1 : Store :=
  { exStore0 with appointments := [(exApptId, exAppt)] }

/-- A create request for Ava's 60-minute service starting at `t`. -/
def exReq (t : Int) : AppointmentCreate :=
  { client_id := exClientId, staff_id := exStaffId, service_id := exServiceId,
    start_time := t, notes := none }

/-- Book 600–660, cancel it, book the same window again, then flip the
first appointment straight back to `booked`: the final update does no
overlap re-check, so the store ends double-booked. -/
def cexOps : List Op :=
  [Op.create exApptId (exReq 600),
   Op.update exApptId { status := some Status.canceled, notes := none } 700,
   Op.create exApptId2 (exReq 600),
   Op.update exApptId { status := some Status.booked, notes := none } 800]

/-- A benign sequence: book, cancel, book the freed window again. -/
def wOps : List Op :=
  [Op.create exApptId (exReq 600),
   Op.update exApptId { status := some Status.canceled, notes := none } 700,
   Op.create exApptId2 (exReq 600)]

/-! ## Helper lemmas -/

/-- Unfolding of the per-document overlap test into its four conjuncts. -/
theorem overlapPred_eq_true_iff (staff_id : String) (startT endT : Int)
    (pr : String × AppointmentDoc) :
    overlapPred staff_id startT endT pr = true ↔
      pr.2.staff_id = staff_id ∧ blockingStatus pr.2.status ∧
        pr.2.start_time < endT ∧ pr.2.end_time > startT := by
  simp [overlapPred, blockingStatus, and_assoc]

/-- With no exclusion, `has_overlap` is an existential over the stored
appointments. -/
theorem has_overlap_none_eq_true_iff (s : Store) (staff_id : String)
    (startT endT : Int) :
    has_overlap s staff_id startT endT none = true ↔
      ∃ pr ∈ s.appointments, overlapPred staff_id startT endT pr = true := by
  simp [has_overlap, List.countP_pos_iff]

/-- With no exclusion, `has_overlap` is false exactly when every stored
appointment fails the per-document test. -/
theorem has_overlap_none_eq_false_iff (s : Store) (staff_id : String)
    (startT endT : Int) :
    has_overlap s staff_id startT endT none = false ↔
      ∀ pr ∈ s.appointments, overlapPred staff_id startT endT pr = false := by
  rw [← Bool.not_eq_true, has_overlap_none_eq_true_iff]
  simp

/-- Once the three entity lookups succeed, `create_appointment` is the
overlap check followed by either the conflict error or the insert. -/
theorem create_appointment_resolved (s : Store) (newId : String)
    (p : AppointmentCreate) (c : ClientDoc) (f : StaffDoc) (v : ServiceDoc)
    (hc : ensure_exists_doc s.clients p.client_id = some c)
    (hf : ensure_exists_doc s.staffs p.staff_id = some f)
    (hv : ensure_exists_doc s.services p.service_id = some v) :
    create_appointment s newId p =
      if has_overlap s p.staff_id p.start_time
          (compute_end p.start_time (v.duration_minutes.getD 60)) none then
        (Except.error (ApiError.conflict
          "Time slot overlaps another appointment for this staff member"), s)
      else
        (Except.ok (newApptDoc p
            (compute_end p.start_time (v.duration_minutes.getD 60))),
          { s with appointments := s.appointments ++
              [(newId, newApptDoc p
                  (compute_end p.start_time (v.duration_minutes.getD 60)))] }) := by
  unfold create_appointment
  rw [hc, hf, hv]
  rfl

/-- `create_appointment` either raises (store untouched) or appends
exactly one new appointment, which is booked, for the requested staff
member, and passed the overlap check. -/
theorem create_appointment_cases (s : Store) (newId : String)
    (p : AppointmentCreate) :
    (∃ e, create_appointment s newId p = (Except.error e, s)) ∨
    (∃ a, create_appointment s newId p =
        (Except.ok a, { s with appointments := s.appointments ++ [(newId, a)] }) ∧
      a.staff_id = p.staff_id ∧ a.status = Status.booked ∧
      a.start_time = p.start_time ∧
      has_overlap s p.staff_id a.start_time a.end_time none = false) := by
  cases hc : ensure_exists_doc s.clients p.client_id with
  | none => exact Or.inl ⟨_, by unfold create_appointment; rw [hc]⟩
  | some c =>
    cases hf : ensure_exists_doc s.staffs p.staff_id with
    | none => exact Or.inl ⟨_, by unfold create_appointment; rw [hc, hf]⟩
    | some f =>
      cases hv : ensure_exists_doc s.services p.service_id with
      | none => exact Or.inl ⟨_, by unfold create_appointment; rw [hc, hf, hv]⟩
      | some v =>
        have hres := create_appointment_resolved s newId p c f v hc hf hv
        by_cases hov : has_overlap s p.staff_id p.start_time
          (compute_end p.start_time (v.duration_minutes.getD 60)) none = true
        · rw [if_pos hov] at hres
          exact Or.inl ⟨_, hres⟩
        · rw [if_neg hov] at hres
          refine Or.inr ⟨_, hres, rfl, rfl, rfl, ?_⟩
          exact Bool.eq_false_iff.mpr hov

/-- `update_appointment_status` either leaves the store untouched or
replaces the looked-up document by its `$set`-patched version. -/
theorem update_appointment_cases (s : Store) (aid : String)
    (payload : AppointmentStatusUpdate) (now : Int) :
    (update_appointment_status s aid payload now).2 = s ∨
    (∃ key doc, oidParse aid = some key ∧
      find_one s.appointments key = some doc ∧
      (update_appointment_status s aid payload now).2 =
        { s with appointments :=
            setFirst s.appointments key (patchDoc doc payload now) }) := by
  unfold update_appointment_status
  split
  · exact Or.inl rfl
  · split
    · exact Or.inl rfl
    · split
      · exact Or.inl rfl
      · rename_i x key hkey y doc hdoc hne
        exact Or.inr ⟨key, doc, hkey, hdoc, rfl⟩


/-- A member of `setFirst l key d'` is either an original member or the
replacement of the first entry matching `key`. -/
theorem mem_setFirst (l : List (String × AppointmentDoc)) (key : String)
    (d' : AppointmentDoc) :
    ∀ x ∈ setFirst l key d', x ∈ l ∨
      ∃ r, l.find? (fun y => y.1 == key) = some r ∧ x = (r.1, d') := by
  induction l with
  | nil => intro x hx; simp [setFirst] at hx
  | cons p rest ih =>
    intro x hx
    by_cases hk : (p.1 == key) = true
    · rw [setFirst, if_pos hk] at hx
      rcases List.mem_cons.mp hx with rfl | hxr
      · exact Or.inr ⟨p, List.find?_cons_of_pos _ hk, rfl⟩
      · exact Or.inl (List.mem_cons_of_mem _ hxr)
    · rw [setFirst, if_neg hk] at hx
      rcases List.mem_cons.mp hx with rfl | hxr
      · exact Or.inl (List.mem_cons_self _ _)
      · rcases ih x hxr with hxl | ⟨r, hr, hxr'⟩
        · exact Or.inl (List.mem_cons_of_mem _ hxl)
        · refine Or.inr ⟨r, ?_, hxr'⟩
          rw [List.find?_cons_of_neg]
          · exact hr
          · exact hk

/-- When the stored keys are distinct, a member of `setFirst l key d'`
is an original member with a different key, or carries the patched
document. -/
theorem mem_setFirst_nodup (l : List (String × AppointmentDoc)) (key : String)
    (d' : AppointmentDoc) (hnd : (l.map Prod.fst).Nodup) :
    ∀ x ∈ setFirst l key d', (x ∈ l ∧ x.1 ≠ key) ∨ x.2 = d' := by
  induction l with
  | nil => intro x hx; simp [setFirst] at hx
  | cons p rest ih =>
    rw [List.map_cons, List.nodup_cons] at hnd
    intro x hx
    by_cases hk : (p.1 == key) = true
    · rw [setFirst, if_pos hk] at hx
      rcases List.mem_cons.mp hx with rfl | hxr
      · exact Or.inr rfl
      · refine Or.inl ⟨List.mem_cons_of_mem _ hxr, ?_⟩
        have hpk : p.1 = key := by simpa using hk
        intro hxk
        exact hnd.1 (by
          have : x.1 ∈ rest.map Prod.fst := List.mem_map_of_mem Prod.fst hxr
          rwa [hxk, ← hpk] at this)
    · rw [setFirst, if_neg hk] at hx
      rcases List.mem_cons.mp hx with rfl | hxr
      · exact Or.inl ⟨List.mem_cons_self _ _, by simpa using hk⟩
      · rcases ih hnd.2 x hxr with ⟨hxl, hxk⟩ | hx2
        · exact Or.inl ⟨List.mem_cons_of_mem _ hxl, hxk⟩
        · exact Or.inr hx2

/-- Replacing the first entry matching `key` preserves pairwise schedule
compatibility, provided compatibility transfers from the replaced
document to its patched version (in both argument positions). -/
theorem pairwise_setFirst (l : List (String × AppointmentDoc)) (key : String)
    (d' : AppointmentDoc) (hl : l.Pairwise apptCompat)
    (htr : ∀ r, l.find? (fun y => y.1 == key) = some r →
      (∀ q, apptCompat r q → apptCompat (r.1, d') q) ∧
      (∀ q, apptCompat q r → apptCompat q (r.1, d'))) :
    (setFirst l key d').Pairwise apptCompat := by
  induction l with
  | nil => exact List.Pairwise.nil
  | cons p rest ih =>
    rcases List.pairwise_cons.mp hl with ⟨hhead, htail⟩
    by_cases hk : (p.1 == key) = true
    · have hfind : (p :: rest).find? (fun y => y.1 == key) = some p :=
        List.find?_cons_of_pos _ hk
      rw [setFirst, if_pos hk]
      refine List.pairwise_cons.mpr ⟨?_, htail⟩
      intro q hq
      exact (htr p hfind).1 q (hhead q hq)
    · have hfind : (p :: rest).find? (fun y => y.1 == key) =
          rest.find? (fun y => y.1 == key) :=
        List.find?_cons_of_neg _ hk
      rw [setFirst, if_neg hk]
      refine List.pairwise_cons.mpr ⟨?_, ih htail ?_⟩
      · intro q hq
        rcases mem_setFirst rest key d' q hq with hql | ⟨r, hr, hq'⟩
        · exact hhead q hql
        · subst hq'
          exact (htr r (hfind ▸ hr)).2 p (hhead r (List.mem_of_find?_eq_some hr))
      · intro r hr
        exact htr r (hfind ▸ hr)

/-- Schedule compatibility only reads a document's staff, status and
interval, so it transfers to any document agreeing on those (left
argument). -/
theorem apptCompat_congr_left (r : String × AppointmentDoc)
    (d' : AppointmentDoc) (q : String × AppointmentDoc)
    (hstaff : d'.staff_id = r.2.staff_id) (hstart : d'.start_time = r.2.start_time)
    (hend : d'.end_time = r.2.end_time)
    (hstat : blockingStatus d'.status → blockingStatus r.2.status)
    (h : apptCompat r q) : apptCompat (r.1, d') q := by
  intro hs hb hq hover
  exact h (hstaff.symm.trans hs) (hstat hb) hq
    ⟨hstart ▸ hover.1, hend ▸ hover.2⟩

/-- Schedule compatibility transfer, right argument. -/
theorem apptCompat_congr_right (r : String × AppointmentDoc)
    (d' : AppointmentDoc) (q : String × AppointmentDoc)
    (hstaff : d'.staff_id = r.2.staff_id) (hstart : d'.start_time = r.2.start_time)
    (hend : d'.end_time = r.2.end_time)
    (hstat : blockingStatus d'.status → blockingStatus r.2.status)
    (h : apptCompat q r) : apptCompat q (r.1, d') := by
  intro hs hb hq hover
  exact h (hs.trans hstaff) hb (hstat hq)
    ⟨hend ▸ hover.1, hstart ▸ hover.2⟩

/-- A create never introduces a double booking: either it raises, or the
appointment it appends passed the overlap check against every stored
blocking appointment of that staff member. -/
theorem create_preserves_consistent (s : Store) (newId : String)
    (p : AppointmentCreate) (h : staffConsistent s) :
    staffConsistent (create_appointment s newId p).2 := by
  rcases create_appointment_cases s newId p with
    ⟨e, he⟩ | ⟨a, he, hstaff, hstatus, hstart, hno⟩
  · rw [he]; exact h
  · rw [he]
    unfold staffConsistent at h ⊢
    rw [List.pairwise_append]
    refine ⟨h, List.pairwise_singleton _ _, ?_⟩
    intro x hx b hb
    rw [List.mem_singleton] at hb
    subst hb
    intro hs hbx hba hover
    have hfalse :=
      (has_overlap_none_eq_false_iff s p.staff_id a.start_time a.end_time).mp hno x hx
    have htrue : overlapPred p.staff_id a.start_time a.end_time x = true := by
      rw [overlapPred_eq_true_iff]
      exact ⟨hs.trans hstaff, hbx, hover.1, hover.2⟩
    rw [htrue] at hfalse
    exact Bool.noConfusion hfalse

/-- An update that leaves the status alone or sets it to `canceled`
never introduces a double booking: the patched document keeps the staff
member and interval of the stored one and never gains a blocking
status. -/
theorem update_preserves_consistent (s : Store) (aid : String)
    (payload : AppointmentStatusUpdate) (now : Int)
    (hpl : payload.status = none ∨ payload.status = some Status.canceled)
    (h : staffConsistent s) :
    staffConsistent (update_appointment_status s aid payload now).2 := by
  rcases update_appointment_cases s aid payload now with
    heq | ⟨key, doc, hkey, hfind, heq⟩
  · rw [heq]; exact h
  · rw [heq]
    unfold staffConsistent at h ⊢
    apply pairwise_setFirst _ _ _ h
    intro r hfr
    have hr2 : r.2 = doc := by
      have h' : (s.appointments.find? (fun pr => pr.1 == key)).map Prod.snd =
          some doc := hfind
      rw [hfr] at h'
      exact Option.some.inj h'
    have hstat : blockingStatus (patchDoc doc payload now).status →
        blockingStatus r.2.status := by
      rw [hr2]
      rcases hpl with hnone | hcanc
      · have hdst : (patchDoc doc payload now).status = doc.status := by
          simp [patchDoc, hnone]
        rw [hdst]
        exact id
      · have hdst : (patchDoc doc payload now).status = Status.canceled := by
          simp [patchDoc, hcanc]
        rw [hdst]
        intro hb
        rcases hb with hb | hb <;> exact Status.noConfusion hb
    constructor
    · intro q hq
      exact apptCompat_congr_left r _ q (by rw [hr2]; rfl) (by rw [hr2]; rfl)
        (by rw [hr2]; rfl) hstat hq
    · intro q hq
      exact apptCompat_congr_right r _ q (by rw [hr2]; rfl) (by rw [hr2]; rfl)
        (by rw [hr2]; rfl) hstat hq

/-- Running any sequence of creates and non-blocking updates preserves
the schedule invariant. -/
theorem runOps_preserves_consistent (ops : List Op) (s : Store)
    (hops : ∀ op ∈ ops, updateKeepsBlocking op) (h : staffConsistent s) :
    staffConsistent (runOps s ops) := by
  induction ops generalizing s with
  | nil => exact h
  | cons op rest ih =>
    have hop := hops op (List.mem_cons_self _ _)
    have hrest : ∀ o ∈ rest, updateKeepsBlocking o :=
      fun o ho => hops o (List.mem_cons_of_mem _ ho)
    show staffConsistent (runOps (applyOp s op) rest)
    cases op with
    | create newId payload =>
      exact ih (applyOp s (Op.create newId payload)) hrest
        (create_preserves_consistent s newId payload h)
    | update aid payload now =>
      exact ih (applyOp s (Op.update aid payload now)) hrest
        (update_preserves_consistent s aid payload now hop h)

/-- Once the id parses, the document is found, and at least one field is
supplied, `update_appointment_status` returns the patched document and
writes it back. -/
theorem update_appointment_resolved (s : Store) (rawAid key : String)
    (doc : AppointmentDoc) (payload : AppointmentStatusUpdate) (now : Int)
    (hkey : oidParse rawAid = some key)
    (hfind : find_one s.appointments key = some doc)
    (hsome : (payload.status.isNone && payload.notes.isNone) = false) :
    update_appointment_status s rawAid payload now =
      (Except.ok (patchDoc doc payload now),
        { s with appointments :=
            setFirst s.appointments key (patchDoc doc payload now) }) := by
  unfold update_appointment_status
  rw [hkey]
  simp only [hfind, hsome]
  rfl

/-! ## The claims -/

/-- C1: with the referenced client, staff and service all resolving,
`create_appointment` rejects with the Conflict error exactly when some
stored appointment for the same `staff_id` with status `booked` or
`completed` satisfies `existing.start_time < new.end_time` and
`existing.end_time > new.start_time` (half-open interval test on the
derived end time).  In particular back-to-back appointments
(`existing.end_time = new.start_time`) never conflict, and `canceled`
appointments never block. -/
theorem create_conflict_iff_overlap (s : Store) (newId : String)
    (p : AppointmentCreate) (c : ClientDoc) (f : StaffDoc) (v : ServiceDoc)
    (hc : ensure_exists_doc s.clients p.client_id = some c)
    (hf : ensure_exists_doc s.staffs p.staff_id = some f)
    (hv : ensure_exists_doc s.services p.service_id = some v) :
    (create_appointment s newId p).1 =
        Except.error (ApiError.conflict
          "Time slot overlaps another appointment for this staff member") ↔
      ∃ pr ∈ s.appointments, pr.2.staff_id = p.staff_id ∧
        (pr.2.status = Status.booked ∨ pr.2.status = Status.completed) ∧
        pr.2.start_time <
          compute_end p.start_time (v.duration_minutes.getD 60) ∧
        pr.2.end_time > p.start_time := by
  have hres := create_appointment_resolved s newId p c f v hc hf hv
  by_cases hov : has_overlap s p.staff_id p.start_time
      (compute_end p.start_time (v.duration_minutes.getD 60)) none = true
  · rw [if_pos hov] at hres
    constructor
    · intro _
      rcases (has_overlap_none_eq_true_iff s p.staff_id p.start_time
        (compute_end p.start_time (v.duration_minutes.getD 60))).mp hov with
        ⟨pr, hpr, hp⟩
      exact ⟨pr, hpr, (overlapPred_eq_true_iff _ _ _ pr).mp hp⟩
    · intro _
      rw [hres]
  · rw [if_neg hov] at hres
    constructor
    · intro hcontra
      rw [hres] at hcontra
      simp at hcontra
    · rintro ⟨pr, hpr, hstaff, hblock, hlt, hgt⟩
      exfalso
      exact hov ((has_overlap_none_eq_true_iff s p.staff_id p.start_time
        (compute_end p.start_time (v.duration_minutes.getD 60))).mpr
        ⟨pr, hpr, (overlapPred_eq_true_iff _ _ _ pr).mpr ⟨hstaff, hblock, hlt, hgt⟩⟩)

/-- Witness for C1: on a store where Ava has a booked 600–660
appointment, a request at 630 resolves all entities and the equivalence
is established at that concrete input. -/
theorem create_conflict_iff_overlap_witness :
    ((create_appointment exStore1 exApptId2 (exReq 630)).1 =
        Except.error (ApiError.conflict
          "Time slot overlaps another appointment for this staff member") ↔
      ∃ pr ∈ exStore1.appointments, pr.2.staff_id = (exReq 630).staff_id ∧
        (pr.2.status = Status.booked ∨ pr.2.status = Status.completed) ∧
        pr.2.start_time <
          compute_end (exReq 630).start_time (exService.duration_minutes.getD 60) ∧
        pr.2.end_time > (exReq 630).start_time) :=
  create_conflict_iff_overlap exStore1 exApptId2 (exReq 630)
    exClient exStaff exService (by decide) (by decide) (by decide)

/-- C2 counterexample: starting from a store with no appointments, the
sequence book 600–660 / cancel it / book 600–660 again / set the first
appointment back to `booked` leaves the store double-booked — the
status-update path performs no overlap re-check, so the invariant does
not hold after arbitrary sequences of create and update operations. -/
theorem rebook_double_books :
    exStore0.appointments = [] ∧ ¬ staffConsistent (runOps exStore0 cexOps) :=
  ⟨rfl, by decide⟩

/-- C2 (amended): starting from a store with no appointments, after any
sequence of `create_appointment` operations and
`update_appointment_status` operations that do not supply a blocking
status (they omit `status` or set it to `canceled`), no two stored
appointments for the same staff member with status `booked` or
`completed` have intersecting `[start_time, end_time)` intervals. -/
theorem consistent_after_nonblocking_ops (s : Store) (ops : List Op)
    (h0 : s.appointments = [])
    (hops : ∀ op ∈ ops, updateKeepsBlocking op) :
    staffConsistent (runOps s ops) := by
  apply runOps_preserves_consistent ops s hops
  unfold staffConsistent
  rw [h0]
  exact List.Pairwise.nil

/-- Witness for C2 (amended): the book/cancel/re-book sequence `wOps`
keeps the store consistent. -/
theorem consistent_after_nonblocking_ops_witness :
    staffConsistent (runOps exStore0 wOps) :=
  consistent_after_nonblocking_ops exStore0 wOps rfl (by decide)

/-- C3: when the referenced service exists and carries a
`duration_minutes` value, a successful `create_appointment` returns — and
appends to the store — an appointment whose `end_time` is exactly
`start_time + duration_minutes`; the request type has no end-time field,
so the value can only be derived. -/
theorem create_end_time_derived (s : Store) (newId : String)
    (p : AppointmentCreate) (v : ServiceDoc) (d : Int) (a : AppointmentDoc)
    (hv : ensure_exists_doc s.services p.service_id = some v)
    (hd : v.duration_minutes = some d)
    (ha : (create_appointment s newId p).1 = Except.ok a) :
    a.start_time = p.start_time ∧ a.end_time = p.start_time + d ∧
      (create_appointment s newId p).2.appointments =
        s.appointments ++ [(newId, a)] := by
  cases hc : ensure_exists_doc s.clients p.client_id with
  | none =>
    have herr : (create_appointment s newId p).1 =
        Except.error (ApiError.notFound "Client") := by
      unfold create_appointment; rw [hc]
    rw [herr] at ha
    exact Except.noConfusion ha
  | some c =>
    cases hf : ensure_exists_doc s.staffs p.staff_id with
    | none =>
      have herr : (create_appointment s newId p).1 =
          Except.error (ApiError.notFound "Staff") := by
        unfold create_appointment; rw [hc, hf]
      rw [herr] at ha
      exact Except.noConfusion ha
    | some f =>
      have hres := create_appointment_resolved s newId p c f v hc hf hv
      by_cases hov : has_overlap s p.staff_id p.start_time
          (compute_end p.start_time (v.duration_minutes.getD 60)) none = true
      · rw [if_pos hov] at hres
        rw [hres] at ha
        exact Except.noConfusion ha
      · rw [if_neg hov] at hres
        rw [hres] at ha
        have haa : newApptDoc p
            (compute_end p.start_time (v.duration_minutes.getD 60)) = a :=
          Except.ok.inj ha
        rw [← haa]
        refine ⟨rfl, ?_, ?_⟩
        · simp [newApptDoc, compute_end, hd]
        · rw [hres]

/-- Witness for C3: creating Ava's 60-minute appointment at 600 yields
the 600–660 document, appended to the store. -/
theorem create_end_time_derived_witness :
    (newApptDoc (exReq 600) 660).start_time = (exReq 600).start_time ∧
    (newApptDoc (exReq 600) 660).end_time = (exReq 600).start_time + 60 ∧
      (create_appointment exStore0 exApptId (exReq 600)).2.appointments =
        exStore0.appointments ++ [(exApptId, newApptDoc (exReq 600) 660)] :=
  create_end_time_derived exStore0 exApptId (exReq 600) exService 60
    (newApptDoc (exReq 600) 660) (by decide) (by decide) (by decide)

/-- C4: `create_appointment` validates in a fixed, short-circuiting
order: an unresolved client yields NotFound("Client") regardless of the
other fields; with the client resolved, an unresolved staff yields
NotFound("Staff"); with both resolved, an unresolved service yields
NotFound("Service"); only with all three resolved is the overlap check
consulted, deciding between Conflict and success. -/
theorem create_validation_order (s : Store) (newId : String)
    (p : AppointmentCreate) :
    (ensure_exists_doc s.clients p.client_id = none →
      (create_appointment s newId p).1 =
        Except.error (ApiError.notFound "Client")) ∧
    (∀ c, ensure_exists_doc s.clients p.client_id = some c →
      ensure_exists_doc s.staffs p.staff_id = none →
      (create_appointment s newId p).1 =
        Except.error (ApiError.notFound "Staff")) ∧
    (∀ c f, ensure_exists_doc s.clients p.client_id = some c →
      ensure_exists_doc s.staffs p.staff_id = some f →
      ensure_exists_doc s.services p.service_id = none →
      (create_appointment s newId p).1 =
        Except.error (ApiError.notFound "Service")) ∧
    (∀ c f v, ensure_exists_doc s.clients p.client_id = some c →
      ensure_exists_doc s.staffs p.staff_id = some f →
      ensure_exists_doc s.services p.service_id = some v →
      if has_overlap s p.staff_id p.start_time
          (compute_end p.start_time (v.duration_minutes.getD 60)) none then
        (create_appointment s newId p).1 =
          Except.error (ApiError.conflict
            "Time slot overlaps another appointment for this staff member")
      else ∃ a, (create_appointment s newId p).1 = Except.ok a) := by
  refine ⟨?_, ?_, ?_, ?_⟩
  · intro hc
    unfold create_appointment
    rw [hc]
  · intro c hc hf
    unfold create_appointment
    rw [hc, hf]
  · intro c f hc hf hv
    unfold create_appointment
    rw [hc, hf, hv]
  · intro c f v hc hf hv
    have hres := create_appointment_resolved s newId p c f v hc hf hv
    by_cases hov : has_overlap s p.staff_id p.start_time
        (compute_end p.start_time (v.duration_minutes.getD 60)) none = true
    · rw [if_pos hov, hres, if_pos hov]
    · rw [if_neg hov, hres, if_neg hov]
      exact ⟨_, rfl⟩

/-- Witness for C4: a request whose `client_id` is a well-formed id not
present in the client collection fails with NotFound("Client"),
via the first conjunct of the validation-order theorem. -/
theorem create_validation_order_witness :
    (create_appointment exStore0 exApptId
        { client_id := exApptId3, staff_id := exStaffId,
          service_id := exServiceId, start_time := 600, notes := none }).1 =
      Except.error (ApiError.notFound "Client") :=
  (create_validation_order exStore0 exApptId
    { client_id := exApptId3, staff_id := exStaffId,
      service_id := exServiceId, start_time := 600, notes := none }).1
    (by decide)

/-- C5: a failing `create_appointment` leaves the store exactly as it
was — every error is raised before any write — and a successful one
performs exactly one write, appending the single new appointment. -/
theorem create_no_partial_write (s : Store) (newId : String)
    (p : AppointmentCreate) :
    (∀ e, (create_appointment s newId p).1 = Except.error e →
      (create_appointment s newId p).2 = s) ∧
    (∀ a, (create_appointment s newId p).1 = Except.ok a →
      (create_appointment s newId p).2 =
        { s with appointments := s.appointments ++ [(newId, a)] }) := by
  rcases create_appointment_cases s newId p with ⟨e, he⟩ | ⟨a, he, _, _, _, _⟩
  · constructor
    · intro e' h'
      rw [he]
    · intro a h'
      rw [he] at h'
      simp at h'
  · constructor
    · intro e h'
      rw [he] at h'
      simp at h'
    · intro a' h'
      rw [he] at h' ⊢
      have haa : a = a' := Except.ok.inj h'
      rw [haa]

/-- Witness for C5: the successful create at 600 writes exactly the new
appointment and nothing else. -/
theorem create_no_partial_write_witness :
    (create_appointment exStore0 exApptId (exReq 600)).2 =
      { exStore0 with appointments :=
          exStore0.appointments ++ [(exApptId, newApptDoc (exReq 600) 660)] } :=
  (create_no_partial_write exStore0 exApptId (exReq 600)).2
    (newApptDoc (exReq 600) 660) (by decide)

/-- C6: the claim fails on the code.  `update_appointment_status` calls
`ObjectId(appointment_id)` with no try/except (unlike `ensure_exists`),
so a malformed identifier raises an uncaught `bson.errors.InvalidId`
(HTTP 500) instead of NotFound("Appointment"); a well-formed but absent
identifier does fail with NotFound("Appointment") and no write. -/
theorem update_malformed_id_divergence :
    update_appointment_status exStore1 "not-a-valid-objectid"
        { status := none, notes := some "x" } 0 =
      (Except.error ApiError.invalidId, exStore1) ∧
    (update_appointment_status exStore1 "not-a-valid-objectid"
        { status := none, notes := some "x" } 0).1 ≠
      Except.error (ApiError.notFound "Appointment") ∧
    update_appointment_status exStore1 exApptId2
        { status := none, notes := some "x" } 0 =
      (Except.error (ApiError.notFound "Appointment"), exStore1) :=
  ⟨by decide, by decide, by decide⟩

/-- With all three entities resolving and the overlap check clear, the
create succeeds. -/
theorem create_ok_of_no_overlap (s : Store) (newId : String)
    (p : AppointmentCreate) (c : ClientDoc) (f : StaffDoc) (v : ServiceDoc)
    (hc : ensure_exists_doc s.clients p.client_id = some c)
    (hf : ensure_exists_doc s.staffs p.staff_id = some f)
    (hv : ensure_exists_doc s.services p.service_id = some v)
    (hno : has_overlap s p.staff_id p.start_time
      (compute_end p.start_time (v.duration_minutes.getD 60)) none = false) :
    ∃ a, (create_appointment s newId p).1 = Except.ok a := by
  have hres := create_appointment_resolved s newId p c f v hc hf hv
  rw [hres, if_neg (Bool.eq_false_iff.mp hno)]
  exact ⟨_, rfl⟩

/-- C7: canceling an appointment frees its interval.  After the status
update sets the stored appointment to `canceled`, a create for the same
staff member whose requested window is blocked by no *other* stored
appointment succeeds — in particular one overlapping (even equal to) the
canceled window. -/
theorem cancel_frees_interval (s : Store) (rawAid key : String)
    (doc : AppointmentDoc) (now : Int) (newId : String)
    (p : AppointmentCreate) (c : ClientDoc) (f : StaffDoc) (v : ServiceDoc)
    (hkey : oidParse rawAid = some key)
    (hfind : find_one s.appointments key = some doc)
    (hnd : (s.appointments.map Prod.fst).Nodup)
    (hc : ensure_exists_doc s.clients p.client_id = some c)
    (hf : ensure_exists_doc s.staffs p.staff_id = some f)
    (hv : ensure_exists_doc s.services p.service_id = some v)
    (hother : ∀ pr ∈ s.appointments, pr.1 ≠ key →
      overlapPred p.staff_id p.start_time
        (compute_end p.start_time (v.duration_minutes.getD 60)) pr = false) :
    ∃ a, (create_appointment
        (update_appointment_status s rawAid
          { status := some Status.canceled, notes := none } now).2 newId p).1 =
      Except.ok a := by
  have hupd := update_appointment_resolved s rawAid key doc
    { status := some Status.canceled, notes := none } now hkey hfind rfl
  have hs2 : (update_appointment_status s rawAid
      { status := some Status.canceled, notes := none } now).2 =
      { s with appointments :=
                 setFirst s.appointments key
                   (patchDoc doc
                     { status := some Status.canceled, notes := none } now) } := by
    rw [hupd]
  rw [hs2]
  refine create_ok_of_no_overlap _ newId p c f v ?_ ?_ ?_ ?_
  · exact hc
  · exact hf
  · exact hv
  rw [has_overlap_none_eq_false_iff]
  intro pr hpr
  rcases mem_setFirst_nodup s.appointments key
      (patchDoc doc { status := some Status.canceled, notes := none } now)
      hnd pr hpr with ⟨hin, hne⟩ | h2
  · exact hother pr hin hne
  · unfold overlapPred
    rw [h2]
    simp [patchDoc]

/-- Witness for C7: cancel Ava's 600–660 appointment, then re-create the
very same window; the create succeeds. -/
theorem cancel_frees_interval_witness :
    ∃ a, (create_appointment
        (update_appointment_status exStore1 exApptId
          { status := some Status.canceled, notes := none } 700).2
        exApptId2 (exReq 600)).1 = Except.ok a :=
  cancel_frees_interval exStore1 exApptId exApptId exAppt 700 exApptId2
    (exReq 600) exClient exStaff exService (by decide) (by decide) (by decide)
    (by decide) (by decide) (by decide) (by decide)

/-- C8: an update supplying only `notes` returns — and persists — the
stored document with only `notes` replaced and `updated_at` set to the
current time; `status`, the interval, and the three references are
untouched. -/
theorem update_notes_only_frame (s : Store) (rawAid key : String)
    (doc : AppointmentDoc) (n : String) (now : Int)
    (hkey : oidParse rawAid = some key)
    (hfind : find_one s.appointments key = some doc) :
    (update_appointment_status s rawAid
        { status := none, notes := some n } now).1 =
      Except.ok { doc with notes := some n, updated_at := some now } ∧
    (update_appointment_status s rawAid
        { status := none, notes := some n } now).2 =
      { s with appointments :=
                 setFirst s.appointments key
                   { doc with notes := some n, updated_at := some now } } := by
  have hupd := update_appointment_resolved s rawAid key doc
    { status := none, notes := some n } now hkey hfind rfl
  rw [hupd]
  exact ⟨rfl, rfl⟩

/-- Witness for C8: a notes-only update of Ava's appointment keeps its
schedule and stamps `updated_at`. -/
theorem update_notes_only_frame_witness :
    (update_appointment_status exStore1 exApptId
        { status := none, notes := some "vip" } 900).1 =
      Except.ok { exAppt with notes := some "vip", updated_at := some 900 } ∧
    (update_appointment_status exStore1 exApptId
        { status := none, notes := some "vip" } 900).2 =
      { exStore1 with appointments :=
                        setFirst exStore1.appointments exApptId
                          { exAppt with
                            notes := some "vip"
                            updated_at := some 900 } } :=
  update_notes_only_frame exStore1 exApptId exApptId exAppt "vip" 900
    (by decide) (by decide)

/-- C9: an update supplying neither `status` nor `notes` returns the
stored document unmodified and performs no write at all — the store and
`updated_at` are untouched. -/
theorem update_noop_no_write (s : Store) (rawAid key : String)
    (doc : AppointmentDoc) (now : Int)
    (hkey : oidParse rawAid = some key)
    (hfind : find_one s.appointments key = some doc) :
    update_appointment_status s rawAid
        { status := none, notes := none } now = (Except.ok doc, s) := by
  unfold update_appointment_status
  rw [hkey]
  simp only [hfind]
  rfl

/-- Witness for C9: the empty update on Ava's appointment is a pure
no-op. -/
theorem update_noop_no_write_witness :
    update_appointment_status exStore1 exApptId
        { status := none, notes := none } 900 = (Except.ok exAppt, exStore1) :=
  update_noop_no_write exStore1 exApptId exApptId exAppt 900
    (by decide) (by decide)

/-- C10: when the stored service document lacks `duration_minutes`,
`create_appointment` silently defaults the duration to 60 minutes: the
created appointment's `end_time` is `start_time + 60`, and the call does
not fail. -/
theorem create_missing_duration_defaults (s : Store) (newId : String)
    (p : AppointmentCreate) (c : ClientDoc) (f : StaffDoc) (v : ServiceDoc)
    (hc : ensure_exists_doc s.clients p.client_id = some c)
    (hf : ensure_exists_doc s.staffs p.staff_id = some f)
    (hv : ensure_exists_doc s.services p.service_id = some v)
    (hd : v.duration_minutes = none)
    (hno : has_overlap s p.staff_id p.start_time (p.start_time + 60) none
      = false) :
    ∃ a, (create_appointment s newId p).1 = Except.ok a ∧
      a.end_time = p.start_time + 60 := by
  have hres := create_appointment_resolved s newId p c f v hc hf hv
  rw [hd] at hres
  have hno' : has_overlap s p.staff_id p.start_time
      (compute_end p.start_time ((none : Option Int).getD 60)) none = false := hno
  rw [hres, if_neg (Bool.eq_false_iff.mp hno')]
  exact ⟨_, rfl, rfl⟩

/-- Witness for C10: creating against the service document with no
`duration_minutes` field yields a 600–660 appointment. -/
theorem create_missing_duration_defaults_witness :
    ∃ a, (create_appointment exStore0 exApptId
        { client_id := exClientId, staff_id := exStaffId,
          service_id := exServiceNoDurId, start_time := 600,
          notes := none }).1 = Except.ok a ∧
      a.end_time = 600 + 60 :=
  create_missing_duration_defaults exStore0 exApptId
    { client_id := exClientId, staff_id := exStaffId,
      service_id := exServiceNoDurId, start_time := 600, notes := none }
    exClient exStaff exServiceNoDur
    (by decide) (by decide) (by decide) (by decide) (by decide)
